import Mathlib

/-!
Verification of the AuthProvider session lifecycle core
(src/packages/auth-provider/src/components/AuthProvider/AuthProvider.tsx)
against its natural-language specification.

The TypeScript component is shallowly embedded as pure Lean functions over an
explicit `World` record holding the React auth state, the four persisted
local-storage slots and a trace of remote calls.  External collaborators
(token validator, PKCE generator, the three remote endpoints and the logout
notification) are parameters collected in an `Env` record; a call that may
throw is modelled with `Except Unit`.
-/

namespace AuthClient

/-- Truthiness of a nullable string in the JavaScript sense: the absent value
(null / undefined) and the empty string are falsy, every other string is
truthy. -/
def jsTruthy : Option String → Bool
  | none => false
  | some s => s != ""

/-- Modelled from the spec: the constants module
(src/packages/auth-provider/src/common/constants) is not under src/.  The
spec names the invalidation reason for an expired or absent session
"expired session". -/
def EXPIRED_SESSION : String := "expired session"

/-- Modelled from the spec: the constants module is not under src/.  The spec
names the invalidation reason for a failed login attempt "login failed". -/
def LOGIN_ERROR : String := "login failed"

/-- Modelled from the spec: the constants module is not under src/.  The spec
names the invalidation reason for an explicit logout "logout". -/
def LOGOUT_SESSION : String := "logout"

/-- Modelled from the spec: the constants module is not under src/.  The spec
names the invalidation reason used by getAccessToken "access token error". -/
def ACCESS_TOKEN_ERROR : String := "access token error"

/-- The user record stored in the auth state: userId and username. -/
structure User where
  userId : String
  username : String
deriving DecidableEq, Repr

/-- The React auth state of the provider.  `logoutReason` is an optional
field in the source (`logoutReason?: string`), so it is an `Option String`
here: `none` models the field being omitted / undefined. -/
structure AuthState where
  isLoading : Bool
  isAuthenticated : Bool
  user : Option User
  logoutReason : Option String
deriving DecidableEq, Repr

/-- The four persisted local-storage slots (useLocalStorage returns null when
a slot is absent, modelled as `none`). -/
structure Storage where
  idToken : Option String
  accessToken : Option String
  refreshToken : Option String
  nonce : Option String
deriving DecidableEq, Repr

/-- The payload claims extracted from a verified JWT (the source reads
`jwt.payload[JWT.USER_ID_KEY]` and `jwt.payload[JWT.USERNAME_KEY]`). -/
structure Jwt where
  userId : String
  username : String
deriving DecidableEq, Repr

/-- Arguments of the getPreAuthCode remote call. -/
structure PreAuthArgs where
  nonce : String
  clientId : String
  code_challenge : String
deriving DecidableEq, Repr

/-- Response of the getPreAuthCode remote call. -/
structure PreAuthResponse where
  status : Bool
  code : Option String
deriving DecidableEq, Repr

/-- The login grant type (AUTH_TYPES). -/
inductive AuthType where
  | PASSWORD
  | CODE
deriving DecidableEq, Repr

/-- Arguments of the authenticateUser remote call.  `code` and
`code_verifier` are only supplied by the CODE grant. -/
structure AuthArgs where
  username : String
  password : String
  clientId : String
  sessionExpiration : String
  nonce : String
  type : AuthType
  code : Option String
  code_verifier : Option String
deriving DecidableEq, Repr

/-- Response of the authenticateUser remote call. -/
structure AuthResponse where
  status : Bool
  idToken : String
  accessToken : String
  refreshToken : String
  userId : String
deriving DecidableEq, Repr

/-- Arguments of the token refresh remote call. -/
structure RefreshArgs where
  clientId : String
  userId : String
  nonce : Option String
  accessToken : Option String
  refreshToken : Option String
deriving DecidableEq, Repr

/-- Response of the token refresh remote call (`status` is compared for
truthiness and then against the string "success" by the source). -/
structure RefreshResponse where
  status : Option String
  newAccessToken : String
  newRefreshToken : String
deriving DecidableEq, Repr

/-- Arguments of the logoutUser remote call. -/
structure LogoutArgs where
  idToken : Option String
  accessToken : Option String
  refreshToken : Option String
  clientId : String
deriving DecidableEq, Repr

/-- A PKCE pair produced by pkceChallengePair. -/
structure Pkce where
  code_verifier : String
  code_challenge : String
deriving DecidableEq, Repr

/-- One remote call, recorded in the world trace when it is issued. -/
inductive RemoteCall where
  | preAuth (args : PreAuthArgs)
  | authUser (args : AuthArgs)
  | refresh (args : RefreshArgs)
  | logoutRemote (args : LogoutArgs)
deriving DecidableEq, Repr

/-- The external collaborators.  Each fallible operation returns
`Except Unit`; an `Except.error` models a thrown exception. -/
structure Env where
  verify : String → Except Unit (Option Jwt)
  pkce : Except Unit Pkce
  preAuth : PreAuthArgs → Except Unit PreAuthResponse
  authUser : AuthArgs → Except Unit AuthResponse
  refresh : RefreshArgs → Except Unit RefreshResponse
  logoutRemote : LogoutArgs → Except Unit Unit

/-- Provider configuration: the clientId and sessionExpiration props. -/
structure Config where
  clientId : String
  sessionExpiration : String

/-- The complete machine state: auth state, persisted slots and the trace of
remote calls issued so far. -/
structure World where
  auth : AuthState
  store : Storage
  calls : List RemoteCall
deriving DecidableEq, Repr

/-- The initial auth state of the provider (useState initialiser). -/
def initialAuth : AuthState :=
  { isLoading := true, isAuthenticated := false, user := none, logoutReason := some "" }

/-- A world at process start: initial auth state, arbitrary persisted
storage, no remote calls issued yet. -/
def initWorld (store : Storage) : World :=
  { auth := initialAuth, store := store, calls := [] }

/-- The storage with all four slots absent. -/
def emptyStore : Storage :=
  { idToken := none, accessToken := none, refreshToken := none, nonce := none }

/-- Embedding of removeStateAndLocalStorage: resets the auth state (keeping
isLoading true) with `logoutReason || EXPIRED_SESSION` and removes all four
persisted slots. -/
def removeStateAndLocalStorage (logoutReason : Option String) (w : World) : World :=
  let reason : String :=
    match logoutReason with
    | some r => if r = "" then EXPIRED_SESSION else r
    | none => EXPIRED_SESSION
  { w with
    auth := { isLoading := true, isAuthenticated := false, user := none,
              logoutReason := some reason }
    store := emptyStore }

/-- Outcome of an awaited async operation: it returned normally or threw. -/
inductive CallOutcome where
  | ok
  | exc
deriving DecidableEq, Repr

/-- Embedding of invalidateAndLogout: clears state and storage via
removeStateAndLocalStorage (with `message || EXPIRED_SESSION`), then awaits
the logoutUser remote call (issued with the token values captured before the
removal), and finally clears isLoading.  If logoutUser throws, the exception
escapes after the removal already happened. -/
def invalidateAndLogout (env : Env) (cfg : Config) (message : String) (w : World) :
    CallOutcome × World :=
  let msg : String := if message = "" then EXPIRED_SESSION else message
  let args : LogoutArgs :=
    { idToken := w.store.idToken, accessToken := w.store.accessToken,
      refreshToken := w.store.refreshToken, clientId := cfg.clientId }
  let w1 := removeStateAndLocalStorage (some msg) w
  let w2 : World := { w1 with calls := w1.calls ++ [RemoteCall.logoutRemote args] }
  match env.logoutRemote args with
  | Except.error _ => (CallOutcome.exc, w2)
  | Except.ok _ => (CallOutcome.ok, { w2 with auth := { w2.auth with isLoading := false } })

/-- Embedding of the bootstrap useEffect body (first run, guard not yet
tripped): if the state is loading and an idToken is persisted, verify it;
a valid token with a non-empty user id claim authenticates, anything else
(including a thrown verification error) invalidates with EXPIRED_SESSION.
Otherwise only isLoading is cleared. -/
def bootstrapEffect (env : Env) (cfg : Config) (w : World) : CallOutcome × World :=
  match w.auth.isLoading, w.store.idToken with
  | true, some tok =>
    (match env.verify tok with
     | Except.ok (some jwt) =>
       if jwt.userId != "" then
         (CallOutcome.ok,
          { w with auth := { isLoading := false, isAuthenticated := true,
                             user := some { userId := jwt.userId, username := jwt.username },
                             logoutReason := some "" } })
       else invalidateAndLogout env cfg EXPIRED_SESSION w
     | Except.ok none => invalidateAndLogout env cfg EXPIRED_SESSION w
     | Except.error _ => invalidateAndLogout env cfg EXPIRED_SESSION w)
  | _, _ =>
    (CallOutcome.ok, { w with auth := { w.auth with isLoading := false } })

/-- Result of a login call: a returned boolean, or a propagated exception
(the source login has no try/catch). -/
inductive LoginResult where
  | returned (b : Bool)
  | threw
deriving DecidableEq, Repr

/-- Embedding of login: persist a fresh nonce, set isLoading, then run the
CODE grant (PKCE pair, pre-auth code, token exchange) or the PASSWORD grant
(direct token exchange).  Success persists the token triple and sets the
authenticated state; an exchange reporting failure invalidates with
LOGIN_ERROR; a pre-auth rejection in the CODE grant merely returns false;
any thrown collaborator error propagates. -/
def login (env : Env) (cfg : Config) (freshNonce : String)
    (username password : String) (type : AuthType) (w : World) : LoginResult × World :=
  let w1 : World :=
    { w with
      store := { w.store with nonce := some freshNonce }
      auth := { w.auth with isLoading := true } }
  match type with
  | AuthType.CODE =>
    (match env.pkce with
     | Except.error _ => (LoginResult.threw, w1)
     | Except.ok pk =>
       let preArgs : PreAuthArgs :=
         { nonce := freshNonce, clientId := cfg.clientId,
           code_challenge := pk.code_challenge }
       let w2 : World := { w1 with calls := w1.calls ++ [RemoteCall.preAuth preArgs] }
       match env.preAuth preArgs with
       | Except.error _ => (LoginResult.threw, w2)
       | Except.ok pre =>
         if pre.status then
           let aArgs : AuthArgs :=
             { username := username, password := password, clientId := cfg.clientId,
               sessionExpiration := cfg.sessionExpiration, nonce := freshNonce,
               type := AuthType.CODE, code := pre.code,
               code_verifier := some pk.code_verifier }
           let w3 : World := { w2 with calls := w2.calls ++ [RemoteCall.authUser aArgs] }
           match env.authUser aArgs with
           | Except.error _ => (LoginResult.threw, w3)
           | Except.ok resp =>
             if resp.status then
               (LoginResult.returned true,
                { w3 with
                  store := { w3.store with
                             idToken := some resp.idToken,
                             accessToken := some resp.accessToken,
                             refreshToken := some resp.refreshToken }
                  auth := { isLoading := false, isAuthenticated := true,
                            user := some { userId := resp.userId, username := username },
                            logoutReason := some "" } })
             else
               (LoginResult.returned false, removeStateAndLocalStorage (some LOGIN_ERROR) w3)
         else
           (LoginResult.returned false, w2))
  | AuthType.PASSWORD =>
    let aArgs : AuthArgs :=
      { username := username, password := password, clientId := cfg.clientId,
        sessionExpiration := cfg.sessionExpiration, nonce := freshNonce,
        type := AuthType.PASSWORD, code := none, code_verifier := none }
    let w2 : World := { w1 with calls := w1.calls ++ [RemoteCall.authUser aArgs] }
    match env.authUser aArgs with
    | Except.error _ => (LoginResult.threw, w2)
    | Except.ok resp =>
      if resp.status then
        (LoginResult.returned true,
         { w2 with
           store := { w2.store with
                      idToken := some resp.idToken,
                      accessToken := some resp.accessToken,
                      refreshToken := some resp.refreshToken }
           auth := { isLoading := false, isAuthenticated := true,
                     user := some { userId := resp.userId, username := username },
                     logoutReason := none } })
      else
        (LoginResult.returned false, removeStateAndLocalStorage (some LOGIN_ERROR) w2)

/-- Embedding of logout (the preventDefault on the UI event is irrelevant to
the session logic). -/
def logout (env : Env) (cfg : Config) (w : World) : CallOutcome × World :=
  invalidateAndLogout env cfg LOGOUT_SESSION w

/-- Truthiness of `user && user.userId` in the source guard. -/
def userTruthy : Option User → Bool
  | none => false
  | some u => u.userId != ""

/-- The user id read off the auth state (only used under `userTruthy`). -/
def userIdOf : Option User → String
  | none => ""
  | some u => u.userId

/-- The TokenManager instance constructed per render from the persisted
access and refresh tokens. -/
structure TokenManager where
  accessToken : Option String
  refreshToken : Option String
deriving DecidableEq, Repr

/-- Modelled from the spec: the TokenManager class lives in the repository
module common/utilities, which is not under src/.  Per the RefreshCoordinator
contract the refresh call carries the client id, the user id and the nonce;
the manager also holds the persisted access and refresh tokens it was
constructed with, so those are recorded in the call arguments as well. -/
def TokenManager.refreshArgs (tm : TokenManager) (clientId userId : String)
    (nonce : Option String) : RefreshArgs :=
  { clientId := clientId, userId := userId, nonce := nonce,
    accessToken := tm.accessToken, refreshToken := tm.refreshToken }

/-- Outcome of the try block of getAccessToken: a returned string value, or
an exception escaping to the catch handler. -/
inductive TryOut where
  | val (s : String)
  | exc
deriving DecidableEq, Repr

/-- The silent-refresh tail of getAccessToken: issue one refresh call through
the token manager; on success rotate the persisted access/refresh pair and
return the new access token; on a reported failure invalidate with
ACCESS_TOKEN_ERROR and return the empty string; a thrown error escapes. -/
def refreshPath (env : Env) (cfg : Config) (tm : TokenManager) (userId : String)
    (w : World) : TryOut × World :=
  let args : RefreshArgs := tm.refreshArgs cfg.clientId userId w.store.nonce
  let w2 : World := { w with calls := w.calls ++ [RemoteCall.refresh args] }
  match env.refresh args with
  | Except.error _ => (TryOut.exc, w2)
  | Except.ok r =>
    if jsTruthy r.status && r.status == some "success" then
      (TryOut.val r.newAccessToken,
       { w2 with store := { w2.store with
                            accessToken := some r.newAccessToken,
                            refreshToken := some r.newRefreshToken } })
    else
      let pr := invalidateAndLogout env cfg ACCESS_TOKEN_ERROR w2
      (match pr.1 with
       | CallOutcome.ok => TryOut.val ""
       | CallOutcome.exc => TryOut.exc,
       pr.2)

/-- The try block of getAccessToken: when authenticated with a truthy user
id, a truthy persisted access token is verified and returned if valid;
otherwise control falls through to the silent refresh.  When not
authenticated, invalidate with ACCESS_TOKEN_ERROR and return the empty
string. -/
def getAccessTokenTry (env : Env) (cfg : Config) (w : World) : TryOut × World :=
  let tm : TokenManager :=
    { accessToken := w.store.accessToken, refreshToken := w.store.refreshToken }
  if w.auth.isAuthenticated && userTruthy w.auth.user then
    match w.store.accessToken with
    | some tokA =>
      if tokA != "" then
        match env.verify tokA with
        | Except.error _ => (TryOut.exc, w)
        | Except.ok (some jwt) =>
          if jwt.userId != "" then (TryOut.val tokA, w)
          else refreshPath env cfg tm (userIdOf w.auth.user) w
        | Except.ok none => refreshPath env cfg tm (userIdOf w.auth.user) w
      else refreshPath env cfg tm (userIdOf w.auth.user) w
    | none => refreshPath env cfg tm (userIdOf w.auth.user) w
  else
    let pr := invalidateAndLogout env cfg ACCESS_TOKEN_ERROR w
    (match pr.1 with
     | CallOutcome.ok => TryOut.val ""
     | CallOutcome.exc => TryOut.exc,
     pr.2)

/-- Result of getAccessToken: a returned string, or a propagated exception
(possible only when the catch handler itself throws). -/
inductive TokenResult where
  | returned (s : String)
  | threw
deriving DecidableEq, Repr

/-- Embedding of getAccessToken: the try block wrapped in the catch handler,
which invalidates with ACCESS_TOKEN_ERROR and returns the empty string; if
that invalidation itself throws (the logout notification throwing inside the
catch), the exception propagates. -/
def getAccessToken (env : Env) (cfg : Config) (w : World) : TokenResult × World :=
  let t := getAccessTokenTry env cfg w
  match t.1 with
  | TryOut.val s => (TokenResult.returned s, t.2)
  | TryOut.exc =>
    let pr := invalidateAndLogout env cfg ACCESS_TOKEN_ERROR t.2
    (match pr.1 with
     | CallOutcome.ok => TokenResult.returned ""
     | CallOutcome.exc => TokenResult.threw,
     pr.2)

/-- Embedding of getIdToken: returns the persisted idToken when the state is
authenticated and the token is truthy, and undefined (none) otherwise.  The
source function only reads state, so it is a pure function of the world. -/
def getIdToken (w : World) : Option String :=
  if w.auth.isAuthenticated && jsTruthy w.store.idToken then w.store.idToken else none

/-- Number of refresh calls in a trace. -/
def refreshCount : List RemoteCall → Nat
  | [] => 0
  | RemoteCall.refresh _ :: rest => refreshCount rest + 1
  | _ :: rest => refreshCount rest

/-- Number of token-exchange (authenticateUser) calls in a trace. -/
def authUserCount : List RemoteCall → Nat
  | [] => 0
  | RemoteCall.authUser _ :: rest => authUserCount rest + 1
  | _ :: rest => authUserCount rest

/-- The states reachable from a fresh provider instance (arbitrary persisted
storage) by any sequence of bootstrap, login, logout, getAccessToken and the
two invalidation helpers. -/
inductive Reachable (env : Env) (cfg : Config) : World → Prop where
  | init (store : Storage) : Reachable env cfg (initWorld store)
  | boot {w : World} : Reachable env cfg w →
      Reachable env cfg (bootstrapEffect env cfg w).2
  | doLogin {w : World} (n u p : String) (ty : AuthType) : Reachable env cfg w →
      Reachable env cfg (login env cfg n u p ty w).2
  | doLogout {w : World} : Reachable env cfg w →
      Reachable env cfg (logout env cfg w).2
  | doGetAccessToken {w : World} : Reachable env cfg w →
      Reachable env cfg (getAccessToken env cfg w).2
  | doInvalidate {w : World} (msg : String) : Reachable env cfg w →
      Reachable env cfg (invalidateAndLogout env cfg msg w).2
  | doRemove {w : World} (r : Option String) : Reachable env cfg w →
      Reachable env cfg (removeStateAndLocalStorage r w)

/-- The phase/user coherence invariant: the authenticated flag agrees with
the presence of the user record. -/
def AuthInv (s : AuthState) : Prop :=
  s.isAuthenticated = s.user.isSome

/-- A baseline environment for concrete scenarios: verification yields no
token, the remote calls all return failure statuses, nothing throws. -/
def env0 : Env :=
  { verify := fun _ => Except.ok none
    pkce := Except.ok { code_verifier := "v", code_challenge := "c" }
    preAuth := fun _ => Except.ok { status := false, code := none }
    authUser := fun _ => Except.ok
      { status := false, idToken := "", accessToken := "", refreshToken := "", userId := "" }
    refresh := fun _ => Except.ok
      { status := some "failure", newAccessToken := "", newRefreshToken := "" }
    logoutRemote := fun _ => Except.ok () }

/-- A concrete configuration. -/
def cfg0 : Config := { clientId := "client", sessionExpiration := "30d" }

/-- A concrete storage with all four slots populated. -/
def store1 : Storage :=
  { idToken := some "I0", accessToken := some "A0", refreshToken := some "R0",
    nonce := some "N0" }

/-- A concrete authenticated world over `store1`. -/
def wAuthed : World :=
  { auth := { isLoading := false, isAuthenticated := true,
              user := some { userId := "u1", username := "alice" },
              logoutReason := some "" }
    store := store1, calls := [] }

/-- Appending a pre-auth call to a trace does not change its number of
token-exchange calls. -/
theorem authUserCount_append_preAuth (l : List RemoteCall) (a : PreAuthArgs) :
    authUserCount (l ++ [RemoteCall.preAuth a]) = authUserCount l := by
  induction l with
  | nil => rfl
  | cons x rest ih => cases x <;> simp [authUserCount, ih]

/-- Appending a refresh call to a trace increments its refresh count. -/
theorem refreshCount_append_refresh (l : List RemoteCall) (a : RefreshArgs) :
    refreshCount (l ++ [RemoteCall.refresh a]) = refreshCount l + 1 := by
  induction l with
  | nil => rfl
  | cons x rest ih => cases x <;> simp [refreshCount, ih]

/-- Appending a logout notification to a trace does not change its refresh
count. -/
theorem refreshCount_append_logout (l : List RemoteCall) (a : LogoutArgs) :
    refreshCount (l ++ [RemoteCall.logoutRemote a]) = refreshCount l := by
  induction l with
  | nil => rfl
  | cons x rest ih => cases x <;> simp [refreshCount, ih]

/-- removeStateAndLocalStorage always restores the phase/user coherence. -/
theorem authInv_remove (r : Option String) (w : World) :
    AuthInv (removeStateAndLocalStorage r w).auth := by
  simp [removeStateAndLocalStorage, AuthInv]

/-- invalidateAndLogout always restores the phase/user coherence, whether or
not the logout notification throws. -/
theorem authInv_invalidate (env : Env) (cfg : Config) (msg : String) (w : World) :
    AuthInv ((invalidateAndLogout env cfg msg w).2).auth := by
  simp only [invalidateAndLogout, removeStateAndLocalStorage]
  repeat' split
  all_goals simp [AuthInv]

/-- The bootstrap effect preserves the phase/user coherence. -/
theorem authInv_boot (env : Env) (cfg : Config) (w : World) (h : AuthInv w.auth) :
    AuthInv ((bootstrapEffect env cfg w).2).auth := by
  simp only [bootstrapEffect]
  repeat' split
  all_goals solve
    | apply authInv_invalidate
    | simp [AuthInv]
    | simpa [AuthInv] using h

/-- login preserves the phase/user coherence. -/
theorem authInv_login (env : Env) (cfg : Config) (n u p : String) (ty : AuthType)
    (w : World) (h : AuthInv w.auth) :
    AuthInv ((login env cfg n u p ty w).2).auth := by
  simp only [login]
  repeat' split
  all_goals solve
    | apply authInv_remove
    | simp [AuthInv]
    | simpa [AuthInv] using h

/-- The silent-refresh tail preserves the phase/user coherence. -/
theorem authInv_refreshPath (env : Env) (cfg : Config) (tm : TokenManager)
    (uid : String) (w : World) (h : AuthInv w.auth) :
    AuthInv ((refreshPath env cfg tm uid w).2).auth := by
  simp only [refreshPath]
  repeat' split
  all_goals solve
    | apply authInv_invalidate
    | simp [AuthInv]
    | simpa [AuthInv] using h

/-- The try block of getAccessToken preserves the phase/user coherence. -/
theorem authInv_getAccessTokenTry (env : Env) (cfg : Config) (w : World)
    (h : AuthInv w.auth) :
    AuthInv ((getAccessTokenTry env cfg w).2).auth := by
  simp only [getAccessTokenTry]
  repeat' split
  all_goals solve
    | apply authInv_invalidate
    | apply authInv_refreshPath _ _ _ _ _ h
    | simp [AuthInv]
    | simpa [AuthInv] using h

/-- getAccessToken preserves the phase/user coherence. -/
theorem authInv_getAccessToken (env : Env) (cfg : Config) (w : World)
    (h : AuthInv w.auth) :
    AuthInv ((getAccessToken env cfg w).2).auth := by
  simp only [getAccessToken]
  repeat' split
  all_goals solve
    | apply authInv_invalidate
    | apply authInv_getAccessTokenTry _ _ _ h

/-- When the logout notification never throws, invalidateAndLogout completes
normally. -/
theorem invalidateAndLogout_ok (env : Env) (cfg : Config) (msg : String) (w : World)
    (hl : ∀ a, env.logoutRemote a = Except.ok ()) :
    (invalidateAndLogout env cfg msg w).1 = CallOutcome.ok := by
  simp [invalidateAndLogout, hl]

/-- Environment in which the pre-auth step succeeds but the token exchange
reports failure. -/
def envExchangeFail : Env :=
  { env0 with preAuth := fun _ => Except.ok { status := true, code := some "C1" } }

/-- Environment in which token verification throws while the refresh endpoint
would succeed with a rotated pair. -/
def envVerifyThrow : Env :=
  { env0 with
    verify := fun _ => Except.error ()
    refresh := fun _ => Except.ok
      { status := some "success", newAccessToken := "A2", newRefreshToken := "R2" } }

/-- Environment in which the token exchange throws. -/
def envAuthThrow : Env :=
  { env0 with authUser := fun _ => Except.error () }

/-- Environment in which the refresh endpoint succeeds with a rotated pair. -/
def envRefreshOk : Env :=
  { env0 with
    refresh := fun _ => Except.ok
      { status := some "success", newAccessToken := "A2", newRefreshToken := "R2" } }

/-- Environment in which token verification succeeds with the claims of the
user u1/alice. -/
def envVerifyOk : Env :=
  { env0 with verify := fun _ => Except.ok (some { userId := "u1", username := "alice" }) }

/-- Environment in which verification, the pre-auth step and the token
exchange all succeed. -/
def envLoginOk : Env :=
  { env0 with
    verify := fun _ => Except.ok (some { userId := "u1", username := "alice" })
    preAuth := fun _ => Except.ok { status := true, code := some "C1" }
    authUser := fun _ => Except.ok
      { status := true, idToken := "I1", accessToken := "A1", refreshToken := "R1",
        userId := "u2" } }

/-- C1 counterexample: a CODE-grant login whose pre-auth step is rejected
fails (login returns false) yet the session is not invalidated: the logout
reason is untouched rather than "login failed", the state is still
authenticated, the persisted idToken survives and the freshly persisted
nonce is not cleared. -/
theorem login_code_preauth_failure_cex :
    (login env0 cfg0 "n1" "bob" "pw" AuthType.CODE wAuthed).1 =
      LoginResult.returned false ∧
    (login env0 cfg0 "n1" "bob" "pw" AuthType.CODE wAuthed).2.auth.logoutReason ≠
      some LOGIN_ERROR ∧
    (login env0 cfg0 "n1" "bob" "pw" AuthType.CODE wAuthed).2.auth.isAuthenticated =
      true ∧
    (login env0 cfg0 "n1" "bob" "pw" AuthType.CODE wAuthed).2.store.idToken =
      some "I0" ∧
    (login env0 cfg0 "n1" "bob" "pw" AuthType.CODE wAuthed).2.store.nonce =
      some "n1" := by
  decide

/-- C1 (amended): for every login attempt, in either grant, in which the
collaborators return normally, the pre-auth step (in the CODE grant) reports
success and the token exchange reports failure, the session is cleared with
reason "login failed" (not authenticated, user absent, all persisted slots
cleared) and login returns false. -/
theorem login_exchange_failure_invalidates (env : Env) (cfg : Config)
    (n u p : String) (ty : AuthType) (w : World) (pk : Pkce)
    (pre : PreAuthResponse) (resp : AuthResponse)
    (hpk : env.pkce = Except.ok pk)
    (hpre : ∀ a, env.preAuth a = Except.ok pre) (hps : pre.status = true)
    (hA : ∀ a, env.authUser a = Except.ok resp) (hAs : resp.status = false) :
    (login env cfg n u p ty w).1 = LoginResult.returned false ∧
    (login env cfg n u p ty w).2.auth.isAuthenticated = false ∧
    (login env cfg n u p ty w).2.auth.user = none ∧
    (login env cfg n u p ty w).2.auth.logoutReason = some LOGIN_ERROR ∧
    (login env cfg n u p ty w).2.store = emptyStore := by
  cases ty <;>
    simp [login, removeStateAndLocalStorage, hpk, hpre, hps, hA, hAs, LOGIN_ERROR]

/-- Witness for the amended C1, at a concrete CODE-grant scenario. -/
theorem login_exchange_failure_invalidates_witness :
    (login envExchangeFail cfg0 "n1" "bob" "pw" AuthType.CODE wAuthed).1 =
      LoginResult.returned false ∧
    (login envExchangeFail cfg0 "n1" "bob" "pw" AuthType.CODE
      wAuthed).2.auth.isAuthenticated = false ∧
    (login envExchangeFail cfg0 "n1" "bob" "pw" AuthType.CODE
      wAuthed).2.auth.user = none ∧
    (login envExchangeFail cfg0 "n1" "bob" "pw" AuthType.CODE
      wAuthed).2.auth.logoutReason = some LOGIN_ERROR ∧
    (login envExchangeFail cfg0 "n1" "bob" "pw" AuthType.CODE
      wAuthed).2.store = emptyStore :=
  login_exchange_failure_invalidates envExchangeFail cfg0 "n1" "bob" "pw"
    AuthType.CODE wAuthed { code_verifier := "v", code_challenge := "c" }
    { status := true, code := some "C1" }
    { status := false, idToken := "", accessToken := "", refreshToken := "",
      userId := "" }
    rfl (fun _ => rfl) rfl (fun _ => rfl) rfl

/-- C2 counterexample: with the session authenticated, a persisted access
token whose verification throws, and a refresh endpoint that would succeed
with "A2", getAccessToken performs no refresh call at all: it invalidates
with "access token error" and returns the empty string. -/
theorem getAccessToken_verify_throw_cex :
    (getAccessToken envVerifyThrow cfg0 wAuthed).1 = TokenResult.returned "" ∧
    refreshCount (getAccessToken envVerifyThrow cfg0 wAuthed).2.calls = 0 ∧
    (getAccessToken envVerifyThrow cfg0 wAuthed).2.auth.isAuthenticated = false ∧
    (getAccessToken envVerifyThrow cfg0 wAuthed).2.auth.logoutReason =
      some ACCESS_TOKEN_ERROR := by
  decide

/-- C2 (amended): when the session is authenticated and verification of the
persisted access token throws, getAccessToken does not attempt a refresh: the
thrown error reaches the catch handler, which invalidates the session with
"access token error" (clearing all slots) and returns the empty string,
provided the logout notification returns normally. -/
theorem getAccessToken_verify_throw_invalidates (env : Env) (cfg : Config)
    (w : World) (u : User) (tokA : String)
    (hAuth : w.auth.isAuthenticated = true) (hUser : w.auth.user = some u)
    (hUid : u.userId ≠ "") (hTok : w.store.accessToken = some tokA)
    (hTokNe : tokA ≠ "") (hv : env.verify tokA = Except.error ())
    (hl : ∀ a, env.logoutRemote a = Except.ok ()) :
    (getAccessToken env cfg w).1 = TokenResult.returned "" ∧
    refreshCount (getAccessToken env cfg w).2.calls = refreshCount w.calls ∧
    (getAccessToken env cfg w).2.auth.isAuthenticated = false ∧
    (getAccessToken env cfg w).2.auth.logoutReason = some ACCESS_TOKEN_ERROR ∧
    (getAccessToken env cfg w).2.store = emptyStore := by
  simp [getAccessToken, getAccessTokenTry, invalidateAndLogout,
        removeStateAndLocalStorage, userTruthy, bne_iff_ne, hAuth, hUser, hUid,
        hTok, hTokNe, hv, hl, ACCESS_TOKEN_ERROR, refreshCount_append_logout]

/-- Witness for the amended C2 at a concrete scenario. -/
theorem getAccessToken_verify_throw_invalidates_witness :
    (getAccessToken envVerifyThrow cfg0 wAuthed).1 = TokenResult.returned "" ∧
    refreshCount (getAccessToken envVerifyThrow cfg0 wAuthed).2.calls =
      refreshCount wAuthed.calls ∧
    (getAccessToken envVerifyThrow cfg0 wAuthed).2.auth.isAuthenticated = false ∧
    (getAccessToken envVerifyThrow cfg0 wAuthed).2.auth.logoutReason =
      some ACCESS_TOKEN_ERROR ∧
    (getAccessToken envVerifyThrow cfg0 wAuthed).2.store = emptyStore :=
  getAccessToken_verify_throw_invalidates envVerifyThrow cfg0 wAuthed
    { userId := "u1", username := "alice" } "A0"
    rfl rfl (by decide) rfl (by decide) rfl (fun _ => rfl)

/-- C3 counterexample: a PASSWORD login during which the token exchange
throws propagates the exception to the caller instead of converting it into
a boolean result. -/
theorem login_propagates_exception_cex :
    (login envAuthThrow cfg0 "n1" "bob" "pw" AuthType.PASSWORD
      (initWorld store1)).1 = LoginResult.threw := by
  decide

/-- C3 (amended): getAccessToken never propagates an exception (every thrown
verification or refresh error is absorbed into an invalidation and an
empty-string result), provided the logout notification itself returns
normally; login, by contrast, propagates exceptions thrown by its remote
calls. -/
theorem getAccessToken_no_throw (env : Env) (cfg : Config) (w : World)
    (hl : ∀ a, env.logoutRemote a = Except.ok ()) :
    (getAccessToken env cfg w).1 ≠ TokenResult.threw := by
  have hInv : ∀ msg v, (invalidateAndLogout env cfg msg v).1 = CallOutcome.ok :=
    fun msg v => invalidateAndLogout_ok env cfg msg v hl
  simp only [getAccessToken]
  split
  · simp
  · rw [hInv]
    simp

/-- Witness for the amended C3 at a concrete scenario. -/
theorem getAccessToken_no_throw_witness :
    (getAccessToken env0 cfg0 wAuthed).1 ≠ TokenResult.threw :=
  getAccessToken_no_throw env0 cfg0 wAuthed (fun _ => rfl)

/-- C4: after any call to the Invalidate operation - removeStateAndLocalStorage
directly or through invalidateAndLogout - from any state, all four persisted
slots (idToken, accessToken, refreshToken and nonce) read as absent. -/
theorem invalidate_clears_all_slots (r : Option String) (env : Env) (cfg : Config)
    (msg : String) (w v : World) :
    (removeStateAndLocalStorage r w).store = emptyStore ∧
    ((invalidateAndLogout env cfg msg v).2).store = emptyStore := by
  refine ⟨rfl, ?_⟩
  simp only [invalidateAndLogout, removeStateAndLocalStorage]
  repeat' split
  all_goals rfl

/-- C5: for every state reachable by any sequence of bootstrap, login,
logout, getAccessToken and Invalidate operations from a fresh provider over
arbitrary persisted storage, isAuthenticated holds exactly when the user
field is present. -/
theorem reachable_isAuthenticated_iff_user (env : Env) (cfg : Config) (w : World)
    (h : Reachable env cfg w) :
    w.auth.isAuthenticated = true ↔ ∃ u, w.auth.user = some u := by
  have hi : AuthInv w.auth := by
    induction h with
    | init store => simp [AuthInv, initWorld, initialAuth]
    | boot _ ih => exact authInv_boot _ _ _ ih
    | doLogin n u p ty _ ih => exact authInv_login _ _ _ _ _ _ _ ih
    | doLogout _ ih => exact authInv_invalidate _ _ _ _
    | doGetAccessToken _ ih => exact authInv_getAccessToken _ _ _ ih
    | doInvalidate msg _ ih => exact authInv_invalidate _ _ _ _
    | doRemove r _ ih => exact authInv_remove _ _
  rw [AuthInv] at hi
  rw [hi]
  simp [Option.isSome_iff_exists]

/-- Witness for C5 at the initial world over empty storage. -/
theorem reachable_isAuthenticated_iff_user_witness :
    ((initWorld emptyStore).auth.isAuthenticated = true ↔
      ∃ u, (initWorld emptyStore).auth.user = some u) :=
  reachable_isAuthenticated_iff_user env0 cfg0 (initWorld emptyStore)
    (Reachable.init emptyStore)

/-- C6: bootstrap determinism.  From the initial state, a persisted identity
token that verifies with claims userId "u1" / username "alice" yields the
authenticated state for that user with the logout reason cleared; an absent
identity token yields the unauthenticated state with empty reason, unchanged
storage, and no remote calls issued. -/
theorem bootstrap_deterministic (env : Env) (cfg : Config) (tok : String)
    (s1 s2 : Storage)
    (hv : env.verify tok = Except.ok (some { userId := "u1", username := "alice" }))
    (h1 : s1.idToken = some tok) (h2 : s2.idToken = none) :
    (bootstrapEffect env cfg (initWorld s1)).2.auth =
      { isLoading := false, isAuthenticated := true,
        user := some { userId := "u1", username := "alice" },
        logoutReason := some "" } ∧
    (bootstrapEffect env cfg (initWorld s2)).2 =
      { auth := { isLoading := false, isAuthenticated := false, user := none,
                  logoutReason := some "" },
        store := s2, calls := [] } := by
  constructor
  · simp [bootstrapEffect, initWorld, initialAuth, h1, hv]
  · simp [bootstrapEffect, initWorld, initialAuth, h2]

/-- Witness for C6 at a concrete environment and stores. -/
theorem bootstrap_deterministic_witness :
    (bootstrapEffect envVerifyOk cfg0 (initWorld store1)).2.auth =
      { isLoading := false, isAuthenticated := true,
        user := some { userId := "u1", username := "alice" },
        logoutReason := some "" } ∧
    (bootstrapEffect envVerifyOk cfg0 (initWorld emptyStore)).2 =
      { auth := { isLoading := false, isAuthenticated := false, user := none,
                  logoutReason := some "" },
        store := emptyStore, calls := [] } :=
  bootstrap_deterministic envVerifyOk cfg0 "I0" store1 emptyStore rfl rfl rfl

/-- C7: refresh rotation.  From an authenticated state whose persisted access
token does not verify while the refresh endpoint answers success with the
pair A2/R2, getAccessToken issues exactly one refresh call, persists A2 and
R2 in the access and refresh slots, and returns A2. -/
theorem refresh_rotation (env : Env) (cfg : Config) (w : World) (u : User)
    (tokA : String) (resp : RefreshResponse)
    (hAuth : w.auth.isAuthenticated = true) (hUser : w.auth.user = some u)
    (hUid : u.userId ≠ "") (hTok : w.store.accessToken = some tokA)
    (hTokNe : tokA ≠ "") (hv : env.verify tokA = Except.ok none)
    (hr : ∀ a, env.refresh a = Except.ok resp) (hs : resp.status = some "success")
    (hA : resp.newAccessToken = "A2") (hR : resp.newRefreshToken = "R2") :
    (getAccessToken env cfg w).1 = TokenResult.returned "A2" ∧
    (getAccessToken env cfg w).2.store.accessToken = some "A2" ∧
    (getAccessToken env cfg w).2.store.refreshToken = some "R2" ∧
    refreshCount (getAccessToken env cfg w).2.calls = refreshCount w.calls + 1 := by
  simp [getAccessToken, getAccessTokenTry, refreshPath, TokenManager.refreshArgs,
        userTruthy, userIdOf, jsTruthy, bne_iff_ne, hAuth, hUser, hUid, hTok,
        hTokNe, hv, hr, hs, hA, hR, refreshCount_append_refresh]

/-- Witness for C7 at a concrete scenario. -/
theorem refresh_rotation_witness :
    (getAccessToken envRefreshOk cfg0 wAuthed).1 = TokenResult.returned "A2" ∧
    (getAccessToken envRefreshOk cfg0 wAuthed).2.store.accessToken = some "A2" ∧
    (getAccessToken envRefreshOk cfg0 wAuthed).2.store.refreshToken = some "R2" ∧
    refreshCount (getAccessToken envRefreshOk cfg0 wAuthed).2.calls =
      refreshCount wAuthed.calls + 1 :=
  refresh_rotation envRefreshOk cfg0 wAuthed { userId := "u1", username := "alice" }
    "A0" { status := some "success", newAccessToken := "A2", newRefreshToken := "R2" }
    rfl rfl (by decide) rfl (by decide) rfl (fun _ => rfl) rfl rfl rfl

/-- C8: CODE-grant pre-auth rejection.  When the pre-auth endpoint reports
failure, login returns false, the token exchange is never called, and the
three persisted token slots are unchanged. -/
theorem code_preauth_rejection (env : Env) (cfg : Config) (n u p : String)
    (w : World) (pk : Pkce) (pre : PreAuthResponse)
    (hpk : env.pkce = Except.ok pk) (hpre : ∀ a, env.preAuth a = Except.ok pre)
    (hst : pre.status = false) :
    (login env cfg n u p AuthType.CODE w).1 = LoginResult.returned false ∧
    authUserCount (login env cfg n u p AuthType.CODE w).2.calls =
      authUserCount w.calls ∧
    (login env cfg n u p AuthType.CODE w).2.store.idToken = w.store.idToken ∧
    (login env cfg n u p AuthType.CODE w).2.store.accessToken =
      w.store.accessToken ∧
    (login env cfg n u p AuthType.CODE w).2.store.refreshToken =
      w.store.refreshToken := by
  simp [login, hpk, hpre, hst, authUserCount_append_preAuth]

/-- Witness for C8 at a concrete scenario. -/
theorem code_preauth_rejection_witness :
    (login env0 cfg0 "n1" "bob" "pw" AuthType.CODE wAuthed).1 =
      LoginResult.returned false ∧
    authUserCount (login env0 cfg0 "n1" "bob" "pw" AuthType.CODE
      wAuthed).2.calls = authUserCount wAuthed.calls ∧
    (login env0 cfg0 "n1" "bob" "pw" AuthType.CODE wAuthed).2.store.idToken =
      wAuthed.store.idToken ∧
    (login env0 cfg0 "n1" "bob" "pw" AuthType.CODE wAuthed).2.store.accessToken =
      wAuthed.store.accessToken ∧
    (login env0 cfg0 "n1" "bob" "pw" AuthType.CODE wAuthed).2.store.refreshToken =
      wAuthed.store.refreshToken :=
  code_preauth_rejection env0 cfg0 "n1" "bob" "pw" wAuthed
    { code_verifier := "v", code_challenge := "c" } { status := false, code := none }
    rfl (fun _ => rfl) rfl

/-- C9 counterexample: a successful PASSWORD login transitions into the
authenticated phase with the logoutReason field absent (undefined), not
equal to the empty string. -/
theorem password_login_logoutReason_cex :
    (login envLoginOk cfg0 "n1" "bob" "pw" AuthType.PASSWORD
      (initWorld store1)).2.auth.isAuthenticated = true ∧
    (login envLoginOk cfg0 "n1" "bob" "pw" AuthType.PASSWORD
      (initWorld store1)).2.auth.logoutReason ≠ some "" := by
  decide

/-- C9 (amended): a successful bootstrap and a successful CODE login set
logoutReason to the empty string on entering the authenticated phase, while
a successful PASSWORD login leaves the field absent (undefined) rather than
equal to the empty string. -/
theorem authenticated_logoutReason_values (env : Env) (cfg : Config)
    (n u p tok : String) (s : Storage) (w1 w2 : World) (jwt : Jwt)
    (pre : PreAuthResponse) (pk : Pkce) (resp : AuthResponse)
    (hv : env.verify tok = Except.ok (some jwt)) (hj : jwt.userId ≠ "")
    (hid : s.idToken = some tok)
    (hpk : env.pkce = Except.ok pk)
    (hpre : ∀ a, env.preAuth a = Except.ok pre) (hps : pre.status = true)
    (hA : ∀ a, env.authUser a = Except.ok resp) (hAs : resp.status = true) :
    ((bootstrapEffect env cfg (initWorld s)).2.auth.isAuthenticated = true ∧
      (bootstrapEffect env cfg (initWorld s)).2.auth.logoutReason = some "") ∧
    ((login env cfg n u p AuthType.CODE w1).2.auth.isAuthenticated = true ∧
      (login env cfg n u p AuthType.CODE w1).2.auth.logoutReason = some "") ∧
    ((login env cfg n u p AuthType.PASSWORD w2).2.auth.isAuthenticated = true ∧
      (login env cfg n u p AuthType.PASSWORD w2).2.auth.logoutReason = none) := by
  refine ⟨?_, ?_, ?_⟩
  · simp [bootstrapEffect, initWorld, initialAuth, bne_iff_ne, hid, hv, hj]
  · simp [login, hpk, hpre, hps, hA, hAs]
  · simp [login, hA, hAs]

/-- Witness for the amended C9 at a concrete scenario. -/
theorem authenticated_logoutReason_values_witness :
    ((bootstrapEffect envLoginOk cfg0 (initWorld store1)).2.auth.isAuthenticated =
        true ∧
      (bootstrapEffect envLoginOk cfg0 (initWorld store1)).2.auth.logoutReason =
        some "") ∧
    ((login envLoginOk cfg0 "n1" "bob" "pw" AuthType.CODE
        (initWorld store1)).2.auth.isAuthenticated = true ∧
      (login envLoginOk cfg0 "n1" "bob" "pw" AuthType.CODE
        (initWorld store1)).2.auth.logoutReason = some "") ∧
    ((login envLoginOk cfg0 "n1" "bob" "pw" AuthType.PASSWORD
        (initWorld store1)).2.auth.isAuthenticated = true ∧
      (login envLoginOk cfg0 "n1" "bob" "pw" AuthType.PASSWORD
        (initWorld store1)).2.auth.logoutReason = none) :=
  authenticated_logoutReason_values envLoginOk cfg0 "n1" "bob" "pw" "I0" store1
    (initWorld store1) (initWorld store1) { userId := "u1", username := "alice" }
    { status := true, code := some "C1" } { code_verifier := "v", code_challenge := "c" }
    { status := true, idToken := "I1", accessToken := "A1", refreshToken := "R1",
      userId := "u2" }
    rfl (by decide) rfl rfl (fun _ => rfl) rfl (fun _ => rfl) rfl

/-- C10: getIdToken returns the persisted identity token exactly when the
session is authenticated and the identity-token slot holds a non-empty
value; in every other case it returns undefined.  The embedded function is a
pure reader of the world, so it changes no state and issues no remote
call. -/
theorem getIdToken_spec (w : World) (t : String) :
    getIdToken w = some t ↔
      w.auth.isAuthenticated = true ∧ w.store.idToken = some t ∧ t ≠ "" := by
  cases hA : w.auth.isAuthenticated <;> cases hT : w.store.idToken <;>
    simp [getIdToken, jsTruthy, hA, hT]
  case _ s =>
    by_cases hs : s = ""
    · simp [hs]
      exact fun h => h.symm
    · simp [hs, bne_iff_ne]
      intro h
      exact h ▸ hs

end AuthClient
